import Mathlib

/-!
A shallow embedding of the `llmt` function-calling dispatch layer
(`src/llmt/functions/sets.py`) together with the demo UDF
`add_decimal_values` (`src/udfs/udfs.py`), and proofs of the behavioural
properties stated in the specification.

The embedding models Python's `json.loads` / `json.dumps` (the standard
library, used by `run_function` and by result serialization) as an
executable JSON parser and printer over an inductive JSON value type.
Numbers are modelled as integers (no claim concerns floating point
payloads), and string escapes cover the common single-character escape
sequences; both printer and parser agree with CPython's `json` module on
every concrete input used in this development.

The classes `OpenAIFunction`, `FunctionResult`, `RawFunctionResult`
(`llmt/functions/functions.py`), `FunctionWrapper`, `WrapperConfig`
(`llmt/functions/wrapper.py`), the exception classes
(`llmt/exceptions.py`) and the `FunctionCall` typed dict
(`llmt/openai_types.py`) are imported by `sets.py` but their defining
modules are not part of the source tree; they are modelled from the
specification where so marked.
-/

/- A JSON value, as produced by Python's `json.loads`.  Mutual with the
sequence types of array elements and of object fields so that recursion
over values stays structural.  Numbers are modelled as integers. -/
mutual
inductive Json where
  | null : Json
  | bool (b : Bool) : Json
  | num (n : Int) : Json
  | str (s : String) : Json
  | arr (elems : JsonArr) : Json
  | obj (fields : JsonObj) : Json
deriving DecidableEq
inductive JsonArr where
  | nil : JsonArr
  | cons (head : Json) (tail : JsonArr) : JsonArr
deriving DecidableEq
inductive JsonObj where
  | nil : JsonObj
  | cons (key : String) (value : Json) (tail : JsonObj) : JsonObj
deriving DecidableEq
end

/-- The character `\x7b` (opening curly brace). -/
def lbrace : Char := Char.ofNat 123

/-- The character `\x7d` (closing curly brace). -/
def rbrace : Char := Char.ofNat 125

/-- Whether `c` is JSON whitespace (space, tab, newline, carriage return). -/
def jsonWs (c : Char) : Bool :=
  c = ' ' || c = '\t' || c = '\n' || c = '\r'

/-- Drop leading JSON whitespace. -/
def skipWs : List Char → List Char
  | [] => []
  | c :: cs => if jsonWs c then skipWs cs else c :: cs

/-- Decode one escape character of a JSON string literal. -/
def escChar (c : Char) : Option Char :=
  if c = '"' then some '"'
  else if c = '\\' then some '\\'
  else if c = '/' then some '/'
  else if c = 'b' then some (Char.ofNat 8)
  else if c = 'f' then some (Char.ofNat 12)
  else if c = 'n' then some '\n'
  else if c = 'r' then some '\r'
  else if c = 't' then some '\t'
  else none

/-- Parse the body of a JSON string literal, the opening quote already
consumed; returns the decoded string and the remaining input. -/
def parseStringBody : List Char → Option (String × List Char)
  | [] => none
  | c :: cs =>
    if c = '"' then some ("", cs)
    else if c = '\\' then
      match cs with
      | [] => none
      | e :: cs2 =>
        match escChar e with
        | none => none
        | some r =>
          match parseStringBody cs2 with
          | none => none
          | some (s, rest) => some (String.mk (r :: s.data), rest)
    else
      match parseStringBody cs with
      | none => none
      | some (s, rest) => some (String.mk (c :: s.data), rest)

/-- Whether `c` is a decimal digit. -/
def isDigit (c : Char) : Bool := '0' ≤ c && c ≤ '9'

/-- Split off the longest leading run of decimal digits. -/
def takeDigits : List Char → List Char × List Char
  | [] => ([], [])
  | c :: cs =>
    if isDigit c then
      let p := takeDigits cs
      (c :: p.1, p.2)
    else ([], c :: cs)

/-- The natural number denoted by a list of decimal digits. -/
def digitsToNat (ds : List Char) : Nat :=
  ds.foldl (fun acc c => acc * 10 + (c.toNat - 48)) 0

/-- Parse a JSON integer literal (optional minus sign, then digits). -/
def parseNumber : List Char → Option (Json × List Char)
  | '-' :: cs =>
    match takeDigits cs with
    | ([], _) => none
    | (ds, rest) => some (.num (-(digitsToNat ds : Int)), rest)
  | cs =>
    match takeDigits cs with
    | ([], _) => none
    | (ds, rest) => some (.num (digitsToNat ds), rest)

/- Recursive-descent JSON value parser, fuelled to make the nested
recursion structural.  `parseObjBody` and `parseArrBody` expect the
opening brace and bracket, respectively, to have been consumed. -/
mutual
def parseValue : Nat → List Char → Option (Json × List Char)
  | 0, _ => none
  | fuel + 1, cs0 =>
    match skipWs cs0 with
    | [] => none
    | c :: cs =>
      if c = lbrace then parseObjBody fuel cs
      else if c = '[' then parseArrBody fuel cs
      else if c = '"' then
        match parseStringBody cs with
        | none => none
        | some (s, rest) => some (.str s, rest)
      else if c = 't' then
        match cs with
        | 'r' :: 'u' :: 'e' :: rest => some (.bool true, rest)
        | _ => none
      else if c = 'f' then
        match cs with
        | 'a' :: 'l' :: 's' :: 'e' :: rest => some (.bool false, rest)
        | _ => none
      else if c = 'n' then
        match cs with
        | 'u' :: 'l' :: 'l' :: rest => some (.null, rest)
        | _ => none
      else parseNumber (c :: cs)

def parseArrBody : Nat → List Char → Option (Json × List Char)
  | 0, _ => none
  | fuel + 1, cs =>
    match skipWs cs with
    | ']' :: rest => some (.arr .nil, rest)
    | cs2 =>
      match parseValue fuel cs2 with
      | none => none
      | some (v, rest) =>
        match parseArrTail fuel rest with
        | none => none
        | some (items, rest2) => some (.arr (.cons v items), rest2)

def parseArrTail : Nat → List Char → Option (JsonArr × List Char)
  | 0, _ => none
  | fuel + 1, cs =>
    match skipWs cs with
    | ']' :: rest => some (.nil, rest)
    | ',' :: rest =>
      match parseValue fuel rest with
      | none => none
      | some (v, rest2) =>
        match parseArrTail fuel rest2 with
        | none => none
        | some (items, rest3) => some (.cons v items, rest3)
    | _ => none

def parseMember : Nat → List Char → Option (String × Json × List Char)
  | 0, _ => none
  | fuel + 1, cs =>
    match skipWs cs with
    | '"' :: rest =>
      match parseStringBody rest with
      | none => none
      | some (key, rest2) =>
        match skipWs rest2 with
        | ':' :: rest3 =>
          match parseValue fuel rest3 with
          | none => none
          | some (v, rest4) => some (key, v, rest4)
        | _ => none
    | _ => none

def parseObjBody : Nat → List Char → Option (Json × List Char)
  | 0, _ => none
  | fuel + 1, cs =>
    match skipWs cs with
    | [] => none
    | c :: rest =>
      if c = rbrace then some (.obj .nil, rest)
      else
        match parseMember fuel (c :: rest) with
        | none => none
        | some (k, v, rest2) =>
          match parseObjTail fuel rest2 with
          | none => none
          | some (fields, rest3) => some (.obj (.cons k v fields), rest3)

def parseObjTail : Nat → List Char → Option (JsonObj × List Char)
  | 0, _ => none
  | fuel + 1, cs =>
    match skipWs cs with
    | [] => none
    | c :: rest =>
      if c = rbrace then some (.nil, rest)
      else if c = ',' then
        match parseMember fuel rest with
        | none => none
        | some (k, v, rest2) =>
          match parseObjTail fuel rest2 with
          | none => none
          | some (fields, rest3) => some (.cons k v fields, rest3)
      else none
end

/-- Model of Python's `json.loads` as used by `run_function`: parse a
complete JSON document, allowing surrounding whitespace; `none` models a
raised `json.decoder.JSONDecodeError`. -/
def json_loads (s : String) : Option Json :=
  match parseValue (2 * s.length + 2) s.data with
  | none => none
  | some (v, rest) =>
    match skipWs rest with
    | [] => some v
    | _ => none

/-- Escape one character for a JSON string literal, as `json.dumps` does. -/
def jsonEscapeChar (c : Char) : String :=
  if c = '"' then "\\\""
  else if c = '\\' then "\\\\"
  else if c = '\n' then "\\n"
  else if c = '\r' then "\\r"
  else if c = '\t' then "\\t"
  else String.singleton c

/-- Escape a string for inclusion in a JSON document. -/
def jsonEscape (s : String) : String :=
  String.join (s.data.map jsonEscapeChar)

/- Model of Python's `json.dumps` with its default separators, used when a
tool's return value is serialized for the conversation history. -/
mutual
def Json.dumps : Json → String
  | .null => "null"
  | .bool b => if b then "true" else "false"
  | .num n => toString n
  | .str s => "\"" ++ jsonEscape s ++ "\""
  | .arr xs => "[" ++ JsonArr.dumpsElems xs ++ "]"
  | .obj kvs => String.singleton lbrace ++ JsonObj.dumpsFields kvs ++ String.singleton rbrace
def JsonArr.dumpsElems : JsonArr → String
  | .nil => ""
  | .cons x .nil => Json.dumps x
  | .cons x (.cons y t) => Json.dumps x ++ ", " ++ JsonArr.dumpsElems (.cons y t)
def JsonObj.dumpsFields : JsonObj → String
  | .nil => ""
  | .cons k v .nil => "\"" ++ jsonEscape k ++ "\": " ++ Json.dumps v
  | .cons k v (.cons k2 v2 t) =>
    "\"" ++ jsonEscape k ++ "\": " ++ Json.dumps v ++ ", " ++ JsonObj.dumpsFields (.cons k2 v2 t)
end

/-- Look up a key among the fields of a JSON object (first occurrence). -/
def JsonObj.lookup (key : String) : JsonObj → Option Json
  | .nil => none
  | .cons k v t => if k = key then some v else JsonObj.lookup key t

/-- Whether a JSON value is a string. -/
def Json.isStr : Json → Bool
  | .str _ => true
  | _ => false

/-- Extract a named field of a JSON object value. -/
def jsonField (key : String) : Json → Option Json
  | .obj kvs => kvs.lookup key
  | _ => none

/-- The model's structured function-call request, `FunctionCall` from
`llmt/openai_types.py` as consumed by `run_function` (a typed dict with
keys `name` and `arguments`; the spec's CallRequest with `raw_arguments`).
Modelled from the spec: the defining module is not in the source tree. -/
structure FunctionCall where
  name : String
  arguments : String
deriving DecidableEq

/-- The exception classes of `llmt/exceptions.py` raised by the dispatch
layer, plus the two kinds of failure that escape from the invoked tool
itself.  Modelled from the spec: the defining module is not in the source
tree.  `CallableError` stands for an arbitrary exception raised by the
user callable (propagated unwrapped, per the spec); `SerializeTypeError`
is the TypeError-class/ConfigurationError failure for a non-string return
with serialization disabled. -/
inductive LlmtError where
  | FunctionNotFoundError (function_name : String)
  | InvalidJsonError (raw_arguments : String)
  | SerializeTypeError
  | CallableError (message : String)
deriving DecidableEq

/-- Modelled from the spec: `RawFunctionResult` from
`llmt/functions/functions.py` (not in the source tree) — a tool's raw
return value together with its per-tool `serialize` flag. -/
structure RawFunctionResult where
  result : Json
  serialize : Bool
deriving DecidableEq

/-- Modelled from the spec: constructing a `RawFunctionResult` with
`serialize=False` and a non-string value fails with a TypeError-class
error ("the return value is used as-is and must already be a string");
with `serialize=True` the value is kept for JSON encoding.  This happens
inside `get_function_result`, i.e. at invocation time, never at
registration time. -/
def RawFunctionResult.make (result : Json) (serialize : Bool) :
    Except LlmtError RawFunctionResult :=
  if serialize then .ok ⟨result, true⟩
  else
    match result with
    | .str s => .ok ⟨.str s, false⟩
    | _ => .error .SerializeTypeError

/-- Modelled from the spec: the string form of the outcome's value that
re-enters the conversation — the JSON encoding when `serialize` is on,
the raw string itself otherwise. -/
def RawFunctionResult.serialized (r : RawFunctionResult) : String :=
  if r.serialize then r.result.dumps
  else
    match r.result with
    | .str s => s
    | j => j.dumps

/-- Modelled from the spec: `FunctionResult` from
`llmt/functions/functions.py` (not in the source tree) — the spec's
InvocationOutcome `{tool_name, value, remove_call, interpret_as_response}`,
built by `run_function` as
`FunctionResult(function.name, result, function.remove_call,
function.interpret_as_response)`; `result = none` («absent») when the
tool does not save its return value. -/
structure FunctionResult where
  name : String
  result : Option RawFunctionResult
  remove_call : Bool
  interpret_as_response : Bool
deriving DecidableEq

/-- Modelled from the spec: `OpenAIFunction` from
`llmt/functions/functions.py` (not in the source tree) — the spec's
ToolDefinition plus ToolBehaviorConfig, exactly the interface `sets.py`
reads (`name`, `schema`, `save_return`, `serialize`, `remove_call`,
`interpret_as_response`, and being callable on the parsed arguments).
`call`'s `Except.error` models an exception raised inside the call. -/
structure OpenAIFunction where
  name : String
  description : Option String
  parameters : Json
  save_return : Bool
  serialize : Bool
  remove_call : Bool
  interpret_as_response : Bool
  call : Json → Except String Json

/-- Modelled from the spec: the per-tool descriptor sent to the model,
`{name, description, parameters}` (`OpenAIFunction.schema` in
`llmt/functions/functions.py`, not in the source tree); the description
field is omitted when the tool has none. -/
def OpenAIFunction.schema (f : OpenAIFunction) : Json :=
  .obj (.cons "name" (.str f.name)
    (match f.description with
     | some d => .cons "description" (.str d) (.cons "parameters" f.parameters .nil)
     | none => .cons "parameters" f.parameters .nil))

/-- The registry `OpenAIFunctionSet` of `sets.py`: its one attribute is
the mutable list `self.functions`. -/
structure OpenAIFunctionSet where
  functions : List OpenAIFunction

/-- `OpenAIFunctionSet.__init__`: `self.functions = functions or []`. -/
def OpenAIFunctionSet.init (functions : Option (List OpenAIFunction)) : OpenAIFunctionSet :=
  ⟨functions.getD []⟩

/-- The `for` loop of `OpenAIFunctionSet.find_function`: return the first
element whose `name` equals `function_name`, else raise
`FunctionNotFoundError(function_name)`. -/
def find_function_loop (function_name : String) :
    List OpenAIFunction → Except LlmtError OpenAIFunction
  | [] => .error (.FunctionNotFoundError function_name)
  | f :: rest =>
    if f.name = function_name then .ok f else find_function_loop function_name rest

/-- `OpenAIFunctionSet.find_function` from `sets.py`. -/
def OpenAIFunctionSet.find_function (self : OpenAIFunctionSet) (function_name : String) :
    Except LlmtError OpenAIFunction :=
  find_function_loop function_name self.functions

/-- `OpenAIFunctionSet.get_function_result` from `sets.py`:
`result = function(arguments)`; if `function.save_return`, return
`RawFunctionResult(result, serialize=function.serialize)`, else `None`.
An exception from the callable propagates (as `CallableError`). -/
def OpenAIFunctionSet.get_function_result (_self : OpenAIFunctionSet)
    (function : OpenAIFunction) (arguments : Json) :
    Except LlmtError (Option RawFunctionResult) :=
  match function.call arguments with
  | .error e => .error (.CallableError e)
  | .ok result =>
    if function.save_return then
      match RawFunctionResult.make result function.serialize with
      | .error e => .error e
      | .ok r => .ok (some r)
    else .ok none

/-- `OpenAIFunctionSet.run_function` from `sets.py`: resolve the name via
`find_function` (errors propagate), parse the arguments with `json.loads`
(a `JSONDecodeError` becomes `InvalidJsonError(input_data["arguments"])`),
run `get_function_result`, and package the `FunctionResult`. -/
def OpenAIFunctionSet.run_function (self : OpenAIFunctionSet) (input_data : FunctionCall) :
    Except LlmtError FunctionResult :=
  match self.find_function input_data.name with
  | .error e => .error e
  | .ok function =>
    match json_loads input_data.arguments with
    | none => .error (.InvalidJsonError input_data.arguments)
    | some arguments =>
      match self.get_function_result function arguments with
      | .error e => .error e
      | .ok result =>
        .ok ⟨function.name, result, function.remove_call, function.interpret_as_response⟩

/-- `OpenAIFunctionSet.functions_schema` from `sets.py`:
`[function.schema for function in self.functions]`. -/
def OpenAIFunctionSet.functions_schema (self : OpenAIFunctionSet) : List Json :=
  self.functions.map OpenAIFunction.schema

/-- `OpenAIFunctionSet._add_function` from `sets.py`:
`self.functions.append(function)`, i.e. the updated registry state. -/
def OpenAIFunctionSet.add_function_impl (self : OpenAIFunctionSet)
    (function : OpenAIFunction) : OpenAIFunctionSet :=
  ⟨self.functions ++ [function]⟩

/-- Modelled from the spec: `WrapperConfig` from
`llmt/functions/wrapper.py` (not in the source tree) — the per-tool
behaviour flags (`sets.py` constructs it as
`WrapperConfig(None, save_return, serialize, remove_call,
interpret_as_response)`; the leading parsers argument carries no
behaviour specified by the spec and is omitted here). -/
structure WrapperConfig where
  save_return : Bool
  serialize : Bool
  remove_call : Bool
  interpret_as_response : Bool
deriving DecidableEq

/-- Default flags, matching the keyword defaults of `add_function`. -/
def WrapperConfig.default : WrapperConfig := ⟨true, true, false, false⟩

/-- First line of a docstring (for the default tool description). -/
def firstLine (s : String) : String :=
  ((s.splitOn "\n").headD s).trim

/-- Modelled from the spec: a raw Python callable as the Callable Wrapper
sees it — its `__name__`, its docstring, the parameter schema derived by
introspecting its declared parameter names and types (carried here as
data, computed once at registration), and its behaviour on keyword
arguments.  `impl`'s `Except.error` models an exception raised by the
callable's body (or by the keyword-argument binding itself). -/
structure PyCallable where
  function_name : String
  docstring : Option String
  params_schema : Json
  impl : JsonObj → Except String Json

/-- Modelled from the spec: `FunctionWrapper` from
`llmt/functions/wrapper.py` (not in the source tree) — wrap a raw
callable into an `OpenAIFunction`: the name defaults to the callable's
identifier, the description to the first line of its docstring, the
parameter schema is the introspected one, and invocation expands the
parsed JSON object as keyword arguments (a non-object argument value
fails like a `**`-expansion of a non-mapping does). -/
def FunctionWrapper (function : PyCallable) (config : WrapperConfig)
    (name : Option String) (description : Option String) : OpenAIFunction :=
  { name := name.getD function.function_name
    description := description <|> function.docstring.map firstLine
    parameters := function.params_schema
    save_return := config.save_return
    serialize := config.serialize
    remove_call := config.remove_call
    interpret_as_response := config.interpret_as_response
    call := fun arguments =>
      match arguments with
      | .obj kwargs => function.impl kwargs
      | _ => .error "TypeError: arguments do not expand as keyword arguments" }

/-- The polymorphic first argument of `BaseFunctionSet.add_function`: a
fully-formed `OpenAIFunction`, a raw callable, or omitted (`None`). -/
inductive AddFunctionArg where
  | func (function : OpenAIFunction)
  | callable (function : PyCallable)
  | nothing

/-- The return value of `BaseFunctionSet.add_function`: the
`OpenAIFunction` passed in, the original callable passed in, or the
configured factory `partial(self.add_function, name=..., ...)`. -/
inductive AddFunctionReturn where
  | func (function : OpenAIFunction)
  | callable (function : PyCallable)
  | factory (name : Option String) (description : Option String) (config : WrapperConfig)

/-- `BaseFunctionSet.add_function` from `sets.py` (state-passing: the
returned registry is the possibly-extended one).  An `OpenAIFunction` is
added verbatim and returned; a callable is wrapped by `FunctionWrapper`
with the given overrides, added, and returned unchanged; with no function
a configured `partial` of `add_function` is returned and the registry is
untouched. -/
def OpenAIFunctionSet.add_function (self : OpenAIFunctionSet) (function : AddFunctionArg)
    (name : Option String) (description : Option String) (config : WrapperConfig) :
    AddFunctionReturn × OpenAIFunctionSet :=
  match function with
  | .func f => (.func f, self.add_function_impl f)
  | .callable c =>
    (.callable c, self.add_function_impl (FunctionWrapper c config name description))
  | .nothing => (.factory name description config, self)

/-- Applying the factory returned by `add_function` to a callable: the
`partial` object captured `self.add_function` and the keyword overrides,
so an application is exactly `add_function(c, name=..., ...)` on the
registry `self2` at application time. -/
def apply_factory (name : Option String) (description : Option String)
    (config : WrapperConfig) (self2 : OpenAIFunctionSet) (c : PyCallable) :
    AddFunctionReturn × OpenAIFunctionSet :=
  self2.add_function (.callable c) name description config

/-- `find_function` in state-passing form: its body only reads
`self.functions` (no statement in it assigns to `self`), so the registry
comes back as it went in. -/
def OpenAIFunctionSet.find_function_st (self : OpenAIFunctionSet) (function_name : String) :
    (Except LlmtError OpenAIFunction) × OpenAIFunctionSet :=
  (self.find_function function_name, self)

/-- `get_function_result` in state-passing form: its body reads only its
`function` and `arguments` parameters, never `self`, so the registry
comes back as it went in. -/
def OpenAIFunctionSet.get_function_result_st (self : OpenAIFunctionSet)
    (function : OpenAIFunction) (arguments : Json) :
    (Except LlmtError (Option RawFunctionResult)) × OpenAIFunctionSet :=
  (self.get_function_result function arguments, self)

/-- `run_function` in state-passing form, threading the registry through
each step of the method body (name resolution, argument parsing,
invocation, packaging) exactly as the source orders them. -/
def OpenAIFunctionSet.run_function_st (self : OpenAIFunctionSet) (input_data : FunctionCall) :
    (Except LlmtError FunctionResult) × OpenAIFunctionSet :=
  let fr := self.find_function_st input_data.name
  match fr.1 with
  | .error e => (.error e, fr.2)
  | .ok function =>
    match json_loads input_data.arguments with
    | none => (.error (.InvalidJsonError input_data.arguments), fr.2)
    | some arguments =>
      let gr := fr.2.get_function_result_st function arguments
      match gr.1 with
      | .error e => (.error e, gr.2)
      | .ok result =>
        (.ok ⟨function.name, result, function.remove_call, function.interpret_as_response⟩,
         gr.2)

/-- `get_function_result` instrumented with the number of invocations of
the underlying callable: `result = function(arguments)` runs exactly once
on every path through the body. -/
def OpenAIFunctionSet.get_function_result_traced (_self : OpenAIFunctionSet)
    (function : OpenAIFunction) (arguments : Json) :
    (Except LlmtError (Option RawFunctionResult)) × Nat :=
  match function.call arguments with
  | .error e => (.error (.CallableError e), 1)
  | .ok result =>
    if function.save_return then
      match RawFunctionResult.make result function.serialize with
      | .error e => (.error e, 1)
      | .ok r => (.ok (some r), 1)
    else (.ok none, 1)

/-- `run_function` instrumented with the number of invocations of the
underlying callable: name resolution and argument parsing happen before
any invocation, and only `get_function_result` invokes. -/
def OpenAIFunctionSet.run_function_traced (self : OpenAIFunctionSet)
    (input_data : FunctionCall) : (Except LlmtError FunctionResult) × Nat :=
  match self.find_function input_data.name with
  | .error e => (.error e, 0)
  | .ok function =>
    match json_loads input_data.arguments with
    | none => (.error (.InvalidJsonError input_data.arguments), 0)
    | some arguments =>
      let gr := self.get_function_result_traced function arguments
      (match gr.1 with
       | .error e => .error e
       | .ok result =>
         .ok ⟨function.name, result, function.remove_call, function.interpret_as_response⟩,
       gr.2)

/-- `functions_schema` in state-passing form: it is a property whose body
only reads `self.functions`, so the registry comes back as it went in. -/
def OpenAIFunctionSet.functions_schema_st (self : OpenAIFunctionSet) :
    List Json × OpenAIFunctionSet :=
  (self.functions_schema, self)

/-- The demo UDF `add_decimal_values` from `src/udfs/udfs.py`:
`return value1 + value2`. -/
def add_decimal_values (value1 : Int) (value2 : Int) : Int :=
  value1 + value2

/-- `add_decimal_values` as a raw Python callable: two declared integer
parameters `value1` and `value2`, bound from keyword arguments, applied
to the function body. -/
def add_decimal_values_callable : PyCallable :=
  { function_name := "add_decimal_values"
    docstring := some "Add two decimal values together."
    params_schema :=
      .obj (.cons "type" (.str "object")
        (.cons "properties"
          (.obj (.cons "value1" (.obj (.cons "type" (.str "integer") .nil))
            (.cons "value2" (.obj (.cons "type" (.str "integer") .nil)) .nil))) .nil))
    impl := fun kwargs =>
      match kwargs.lookup "value1", kwargs.lookup "value2" with
      | some (.num v1), some (.num v2) => .ok (.num (add_decimal_values v1 v2))
      | _, _ => .error "TypeError: invalid arguments for add_decimal_values" }

/-- A registry holding only the registered `add_decimal_values` tool. -/
def adder_set : OpenAIFunctionSet :=
  ((OpenAIFunctionSet.init none).add_function (.callable add_decimal_values_callable)
    none none WrapperConfig.default).2

/-- A callable that returns its keyword arguments as a JSON object. -/
def echo_callable : PyCallable :=
  { function_name := "echo"
    docstring := none
    params_schema := .obj .nil
    impl := fun kwargs => .ok (.obj kwargs) }

/-- A registry holding only the registered `echo` tool. -/
def echo_set : OpenAIFunctionSet :=
  ((OpenAIFunctionSet.init none).add_function (.callable echo_callable)
    none none WrapperConfig.default).2

/-- A callable that returns the non-string value `7`. -/
def returns_seven_callable : PyCallable :=
  { function_name := "returns_seven"
    docstring := none
    params_schema := .obj .nil
    impl := fun _ => .ok (.num 7) }

/-- `returns_seven` registered with `serialize=False` and the default
`save_return=True`. -/
def seven_noser_set : OpenAIFunctionSet :=
  ((OpenAIFunctionSet.init none).add_function (.callable returns_seven_callable)
    none none ⟨true, false, false, false⟩).2

/-- `returns_seven` registered with `serialize=False` and
`save_return=False`. -/
def seven_nosave_set : OpenAIFunctionSet :=
  ((OpenAIFunctionSet.init none).add_function (.callable returns_seven_callable)
    none none ⟨false, false, false, false⟩).2

/-- A callable whose body raises `ValueError`. -/
def raises_callable : PyCallable :=
  { function_name := "raises"
    docstring := none
    params_schema := .obj .nil
    impl := fun _ => .error "ValueError: boom" }

/-- A registry holding only the registered `raises` tool. -/
def raises_set : OpenAIFunctionSet :=
  ((OpenAIFunctionSet.init none).add_function (.callable raises_callable)
    none none WrapperConfig.default).2

/-- First of two distinct tools sharing the name `dup`. -/
def dup1 : OpenAIFunction :=
  { name := "dup", description := none, parameters := .obj .nil
    save_return := true, serialize := true, remove_call := false
    interpret_as_response := false, call := fun _ => .ok (.num 1) }

/-- Second of two distinct tools sharing the name `dup`. -/
def dup2 : OpenAIFunction :=
  { name := "dup", description := some "second", parameters := .obj .nil
    save_return := true, serialize := true, remove_call := false
    interpret_as_response := false, call := fun _ => .ok (.num 2) }

/-- A registry holding two tools with the duplicate name `dup`. -/
def dup_set : OpenAIFunctionSet := ⟨[dup1, dup2]⟩

/-- If the lookup loop succeeds, the returned function is the first
element of the list whose name matches exactly. -/
theorem find_function_loop_ok (n : String) (l : List OpenAIFunction) (f : OpenAIFunction)
    (h : find_function_loop n l = .ok f) :
    f.name = n ∧ ∃ i, ∃ hi : i < l.length,
      l.get ⟨i, hi⟩ = f ∧ ∀ g ∈ l.take i, g.name ≠ n := by
  induction l with
  | nil => exact absurd h (by simp [find_function_loop])
  | cons f0 rest ih =>
    rw [find_function_loop] at h
    by_cases h0 : f0.name = n
    · rw [if_pos h0] at h
      cases h
      exact ⟨h0, 0, by simp, rfl, by simp⟩
    · rw [if_neg h0] at h
      obtain ⟨hn, i, hi, hget, hpre⟩ := ih h
      refine ⟨hn, i + 1, by simpa using hi, by simpa using hget, ?_⟩
      intro g hg
      rcases List.mem_cons.mp (by simpa using hg) with rfl | hg2
      · exact h0
      · exact hpre g hg2

/-- If the lookup loop fails, the error is `FunctionNotFoundError` for
the requested name and no element of the list has that name. -/
theorem find_function_loop_error (n : String) (l : List OpenAIFunction) (e : LlmtError)
    (h : find_function_loop n l = .error e) :
    e = .FunctionNotFoundError n ∧ ∀ f ∈ l, f.name ≠ n := by
  induction l with
  | nil =>
    rw [find_function_loop] at h
    cases h
    exact ⟨rfl, by simp⟩
  | cons f0 rest ih =>
    rw [find_function_loop] at h
    by_cases h0 : f0.name = n
    · rw [if_pos h0] at h
      cases h
    · rw [if_neg h0] at h
      obtain ⟨he, hall⟩ := ih h
      refine ⟨he, ?_⟩
      intro f hf
      rcases List.mem_cons.mp hf with rfl | hf2
      · exact h0
      · exact hall f hf2

/-- If no element of the list has the requested name, the lookup loop
raises `FunctionNotFoundError` for that name. -/
theorem find_function_loop_not_found (n : String) (l : List OpenAIFunction)
    (h : ∀ f ∈ l, f.name ≠ n) :
    find_function_loop n l = .error (.FunctionNotFoundError n) := by
  induction l with
  | nil => rfl
  | cons f0 rest ih =>
    rw [find_function_loop, if_neg (h f0 (List.mem_cons_self f0 rest))]
    exact ih fun f hf => h f (List.mem_cons_of_mem f0 hf)

/-- C1: for every registry state and every name string, `find_function`
returns the first-registered function whose name equals the given string
exactly (case-sensitively), raises `FunctionNotFoundError` for any name
with no matching registered function — the empty string included — and
`run_function` propagates that error unchanged. -/
theorem find_function_first_match_or_not_found (s : OpenAIFunctionSet) (n : String) :
    (∀ f, s.find_function n = .ok f →
       f.name = n ∧ ∃ i, ∃ hi : i < s.functions.length,
         s.functions.get ⟨i, hi⟩ = f ∧ ∀ g ∈ s.functions.take i, g.name ≠ n)
  ∧ ((∀ f ∈ s.functions, f.name ≠ n) →
       s.find_function n = .error (.FunctionNotFoundError n))
  ∧ ((∃ f ∈ s.functions, f.name = n) → ∃ f, s.find_function n = .ok f)
  ∧ (∀ e, s.find_function n = .error e →
       ∀ input : FunctionCall, input.name = n → s.run_function input = .error e) := by
  refine ⟨?_, ?_, ?_, ?_⟩
  · intro f h
    exact find_function_loop_ok n s.functions f h
  · intro h
    exact find_function_loop_not_found n s.functions h
  · rintro ⟨f, hf, hname⟩
    cases hfind : s.find_function n with
    | ok g => exact ⟨g, rfl⟩
    | error e =>
      obtain ⟨_, hall⟩ := find_function_loop_error n s.functions e hfind
      exact absurd hname (hall f hf)
  · intro e he input hn
    unfold OpenAIFunctionSet.run_function
    rw [hn, he]

/-- C1 witness: in a registry with two tools both named `dup`, lookup
returns the first-registered one; unregistered names, the empty string
included, raise `FunctionNotFoundError`, which `run_function` propagates
unchanged. -/
theorem find_function_first_match_or_not_found_witness :
    dup1.name = "dup"
  ∧ dup_set.find_function "dup" = .ok dup1
  ∧ dup_set.find_function "missing" = .error (.FunctionNotFoundError "missing")
  ∧ dup_set.find_function "" = .error (.FunctionNotFoundError "")
  ∧ dup_set.run_function ⟨"", "\x7b\x7d"⟩ = .error (.FunctionNotFoundError "") := by
  refine ⟨((find_function_first_match_or_not_found dup_set "dup").1 dup1 rfl).1,
    rfl, ?_, ?_, ?_⟩
  · exact (find_function_first_match_or_not_found dup_set "missing").2.1 (by decide)
  · exact (find_function_first_match_or_not_found dup_set "").2.1 (by decide)
  · exact (find_function_first_match_or_not_found dup_set "").2.2.2
      (.FunctionNotFoundError "")
      ((find_function_first_match_or_not_found dup_set "").2.1 (by decide))
      ⟨"", "\x7b\x7d"⟩ rfl

/-- C3: `functions_schema` yields exactly one descriptor per registered
tool, in registration order, each descriptor's `name` field matching the
tool's resolved name; it is pure (the registry comes back unchanged) and
calling it twice without an intervening registration yields identical
results. -/
theorem functions_schema_ordered_pure (s : OpenAIFunctionSet) :
    s.functions_schema.length = s.functions.length
  ∧ (∀ i (hi : i < s.functions.length) (hj : i < s.functions_schema.length),
       s.functions_schema.get ⟨i, hj⟩ = (s.functions.get ⟨i, hi⟩).schema
     ∧ jsonField "name" ((s.functions.get ⟨i, hi⟩).schema)
         = some (.str (s.functions.get ⟨i, hi⟩).name))
  ∧ s.functions_schema_st.2 = s
  ∧ (s.functions_schema_st.2.functions_schema_st).1 = s.functions_schema_st.1 := by
  refine ⟨by simp [OpenAIFunctionSet.functions_schema], ?_, rfl, rfl⟩
  intro i hi hj
  constructor
  · simp [OpenAIFunctionSet.functions_schema]
  · rcases h : (s.functions.get ⟨i, hi⟩).description with _ | d <;>
      simp [OpenAIFunction.schema, jsonField, JsonObj.lookup, h]

/-- C3 witness: the two-tool registry `dup_set` concretely exhibits the
descriptor count, the order, and the name match of the first descriptor. -/
theorem functions_schema_ordered_pure_witness :
    dup_set.functions_schema.length = dup_set.functions.length
  ∧ jsonField "name" (dup_set.functions_schema.get ⟨0, by decide⟩) = some (.str "dup") := by
  obtain ⟨hlen, hget, -, -⟩ := functions_schema_ordered_pure dup_set
  obtain ⟨h1, h2⟩ := hget 0 (by decide) (by decide)
  exact ⟨hlen, by rw [h1]; exact h2⟩

/-- C9: dispatch never mutates the registry — `run_function` (in
state-passing form) returns the tool list exactly as it found it, whether
it produces an outcome or an error, and agrees with the plain
`run_function`; the tool list changes only through explicit registration
(`_add_function`, which appends). -/
theorem run_function_preserves_registry (s : OpenAIFunctionSet) (input : FunctionCall) :
    (s.run_function_st input).2 = s
  ∧ (s.run_function_st input).1 = s.run_function input
  ∧ ∀ f : OpenAIFunction, (s.add_function_impl f).functions = s.functions ++ [f] := by
  refine ⟨?_, ?_, fun f => rfl⟩ <;>
  · simp only [OpenAIFunctionSet.run_function_st, OpenAIFunctionSet.find_function_st,
      OpenAIFunctionSet.get_function_result_st, OpenAIFunctionSet.run_function]
    repeat' split
    all_goals first
    | rfl
    | simp_all

/-- Every path through `get_function_result` performs exactly one
invocation of the underlying callable. -/
theorem get_function_result_traced_snd (s : OpenAIFunctionSet) (f : OpenAIFunction)
    (args : Json) : (s.get_function_result_traced f args).2 = 1 := by
  simp only [OpenAIFunctionSet.get_function_result_traced]
  repeat' split
  all_goals rfl

/-- C10: `run_function` invokes the underlying callable exactly once when
the name resolves and the arguments parse (the `save_return` flag only
drops the value, never the invocation, which is unconditional in
`get_function_result`), and never invokes it when the name is
unregistered or the arguments fail to parse; name resolution precedes
parsing, so an unregistered name raises `FunctionNotFoundError` even for
malformed arguments. -/
theorem run_function_invokes_exactly_once (s : OpenAIFunctionSet) (input : FunctionCall) :
    (s.run_function_traced input).1 = s.run_function input
  ∧ (∀ f args, s.find_function input.name = .ok f →
       json_loads input.arguments = some args → (s.run_function_traced input).2 = 1)
  ∧ ((∀ f ∈ s.functions, f.name ≠ input.name) →
       s.run_function input = .error (.FunctionNotFoundError input.name)
       ∧ (s.run_function_traced input).2 = 0)
  ∧ (∀ f, s.find_function input.name = .ok f → json_loads input.arguments = none →
       (s.run_function_traced input).2 = 0) := by
  refine ⟨?_, ?_, ?_, ?_⟩
  · simp only [OpenAIFunctionSet.run_function_traced, OpenAIFunctionSet.run_function,
      OpenAIFunctionSet.get_function_result_traced, OpenAIFunctionSet.get_function_result]
    repeat' split
    all_goals first
    | rfl
    | simp_all
  · intro f args hfind hparse
    have h := get_function_result_traced_snd s f args
    simp only [OpenAIFunctionSet.run_function_traced, hfind, hparse]
    exact h
  · intro h
    have hfind := find_function_loop_not_found input.name s.functions h
    constructor
    · unfold OpenAIFunctionSet.run_function
      rw [show s.find_function input.name = .error (.FunctionNotFoundError input.name)
        from hfind]
    · unfold OpenAIFunctionSet.run_function_traced
      rw [show s.find_function input.name = .error (.FunctionNotFoundError input.name)
        from hfind]
  · intro f hfind hparse
    unfold OpenAIFunctionSet.run_function_traced
    rw [show s.find_function input.name = .ok f from hfind, hparse]

/-- C10 witness: the `echo` tool is invoked exactly once on a well-formed
request; requests with an unregistered name — even with malformed
arguments — raise `FunctionNotFoundError` without any invocation, and a
registered name with malformed arguments parses first and never invokes. -/
theorem run_function_invokes_exactly_once_witness :
    (echo_set.run_function_traced ⟨"echo", "\x7b\x7d"⟩).2 = 1
  ∧ echo_set.run_function ⟨"missing", "\x7binvalid"⟩
      = .error (.FunctionNotFoundError "missing")
  ∧ (echo_set.run_function_traced ⟨"missing", "\x7binvalid"⟩).2 = 0
  ∧ (echo_set.run_function_traced ⟨"echo", "\x7binvalid"⟩).2 = 0 := by
  refine ⟨?_, ?_, ?_, ?_⟩
  · exact (run_function_invokes_exactly_once echo_set ⟨"echo", "\x7b\x7d"⟩).2.1
      (FunctionWrapper echo_callable WrapperConfig.default none none) (.obj .nil) rfl rfl
  · exact ((run_function_invokes_exactly_once echo_set
      ⟨"missing", "\x7binvalid"⟩).2.2.1 (by decide)).1
  · exact ((run_function_invokes_exactly_once echo_set
      ⟨"missing", "\x7binvalid"⟩).2.2.1 (by decide)).2
  · exact (run_function_invokes_exactly_once echo_set ⟨"echo", "\x7binvalid"⟩).2.2.2
      (FunctionWrapper echo_callable WrapperConfig.default none none) rfl rfl

/-- After a successful name resolution, `run_function` is argument
parsing followed by `get_function_result` and packaging — read off from
the method body. -/
theorem run_function_after_find (s : OpenAIFunctionSet) (input : FunctionCall)
    (f : OpenAIFunction) (hfind : s.find_function input.name = .ok f) :
    s.run_function input =
      match json_loads input.arguments with
      | none => .error (.InvalidJsonError input.arguments)
      | some args =>
        match s.get_function_result f args with
        | .error e => .error e
        | .ok result => .ok ⟨f.name, result, f.remove_call, f.interpret_as_response⟩ := by
  unfold OpenAIFunctionSet.run_function
  rw [hfind]

/-- `RawFunctionResult.make` never fails with `InvalidJsonError`. -/
theorem make_not_invalid_json (r : Json) (b : Bool) (raw : String) :
    RawFunctionResult.make r b ≠ .error (.InvalidJsonError raw) := by
  unfold RawFunctionResult.make
  split
  · simp
  · split <;> simp

/-- `get_function_result` never fails with `InvalidJsonError`: its
failures are callable exceptions or the serialization type error. -/
theorem get_function_result_not_invalid_json (s : OpenAIFunctionSet) (f : OpenAIFunction)
    (args : Json) (raw : String) :
    s.get_function_result f args ≠ .error (.InvalidJsonError raw) := by
  unfold OpenAIFunctionSet.get_function_result
  split
  · simp
  · split
    · intro h
      split at h
      · exact make_not_invalid_json _ _ raw (by
          rename_i heq
          rw [heq]
          simpa using h)
      · simp at h
    · simp

/-- C2 counterexample: `"5"` is not a JSON-object-encoded string, yet
`run_function` on a registered name does not raise `InvalidJsonError`
carrying it — `json.loads` accepts any JSON value, so the request
proceeds to invocation and fails there, inside the callable expansion. -/
theorem run_function_nonobject_accepted_counterexample :
    json_loads "5" = some (.num 5)
  ∧ echo_set.run_function ⟨"echo", "5"⟩
      = .error (.CallableError "TypeError: arguments do not expand as keyword arguments") := by
  exact ⟨rfl, rfl⟩

/-- C2 (amended): for every call request whose name is registered,
`run_function` raises `InvalidJsonError` carrying the original
`raw_arguments` string exactly when `raw_arguments` is not a valid JSON
document — any JSON value shape passes the parse step; a valid-JSON
non-object fails later inside the invocation, not with
`InvalidJsonError`. -/
theorem run_function_invalid_json_iff (s : OpenAIFunctionSet) (input : FunctionCall)
    (f : OpenAIFunction) (hfind : s.find_function input.name = .ok f) :
    (s.run_function input = .error (.InvalidJsonError input.arguments) ↔
       json_loads input.arguments = none)
  ∧ (∀ raw2, s.run_function input = .error (.InvalidJsonError raw2) →
       raw2 = input.arguments) := by
  have hrw := run_function_after_find s input f hfind
  constructor
  · constructor
    · intro h
      cases hp : json_loads input.arguments with
      | none => rfl
      | some args =>
        have hrw2 : s.run_function input =
            match s.get_function_result f args with
            | .error e => .error e
            | .ok result => .ok ⟨f.name, result, f.remove_call, f.interpret_as_response⟩ := by
          rw [hrw, hp]
        rw [hrw2] at h
        cases hg : s.get_function_result f args with
        | error e =>
          rw [hg] at h
          simp only [Except.error.injEq] at h
          exact absurd (h ▸ hg) (get_function_result_not_invalid_json s f args input.arguments)
        | ok r => rw [hg] at h; simp at h
    · intro hp
      rw [hrw, hp]
  · intro raw2 h
    cases hp : json_loads input.arguments with
    | none =>
      rw [hrw, hp] at h
      simp only [Except.error.injEq, LlmtError.InvalidJsonError.injEq] at h
      exact h.symm
    | some args =>
      have hrw2 : s.run_function input =
          match s.get_function_result f args with
          | .error e => .error e
          | .ok result => .ok ⟨f.name, result, f.remove_call, f.interpret_as_response⟩ := by
        rw [hrw, hp]
      rw [hrw2] at h
      cases hg : s.get_function_result f args with
      | error e =>
        rw [hg] at h
        simp only [Except.error.injEq] at h
        exact absurd (h ▸ hg) (get_function_result_not_invalid_json s f args raw2)
      | ok r => rw [hg] at h; simp at h

/-- C2 witness: a malformed arguments string on a registered name raises
`InvalidJsonError` carrying exactly the original string. -/
theorem run_function_invalid_json_iff_witness :
    echo_set.run_function ⟨"echo", "\x7binvalid json"⟩
      = .error (.InvalidJsonError "\x7binvalid json") := by
  exact ((run_function_invalid_json_iff echo_set ⟨"echo", "\x7binvalid json"⟩
    (FunctionWrapper echo_callable WrapperConfig.default none none) rfl).1).mpr (by decide)

/-- C4: a tool registered with `save_return=False` yields an outcome with
an absent value, regardless of what its callable returned. -/
theorem save_return_false_drops_value (s : OpenAIFunctionSet) (input : FunctionCall)
    (f : OpenAIFunction) (args v : Json)
    (hfind : s.find_function input.name = .ok f)
    (hsave : f.save_return = false)
    (hparse : json_loads input.arguments = some args)
    (hcall : f.call args = .ok v) :
    s.run_function input = .ok ⟨f.name, none, f.remove_call, f.interpret_as_response⟩ := by
  rw [run_function_after_find s input f hfind, hparse]
  simp [OpenAIFunctionSet.get_function_result, hcall, hsave]

/-- C4 witness: the `returns_seven` tool with `save_return=False`
produces an outcome with value `None` although its callable returned 7. -/
theorem save_return_false_drops_value_witness :
    seven_nosave_set.run_function ⟨"returns_seven", "\x7b\x7d"⟩
      = .ok ⟨"returns_seven", none, false, false⟩ := by
  exact save_return_false_drops_value seven_nosave_set ⟨"returns_seven", "\x7b\x7d"⟩
    (FunctionWrapper returns_seven_callable ⟨false, false, false, false⟩ none none)
    (.obj .nil) (.num 7) rfl rfl rfl rfl

/-- C5 counterexample: a tool registered with `serialize=False` whose
callable returns the non-string `7` but which also has
`save_return=False` makes `run_function` return an outcome — no
ConfigurationError/TypeError-class failure is raised, because
`get_function_result` consults `serialize` only when `save_return` is
true. -/
theorem serialize_false_nonstring_counterexample :
    (FunctionWrapper returns_seven_callable ⟨false, false, false, false⟩ none none).serialize
      = false
  ∧ returns_seven_callable.impl .nil = .ok (.num 7)
  ∧ (Json.num 7).isStr = false
  ∧ seven_nosave_set.run_function ⟨"returns_seven", "\x7b\x7d"⟩
      = .ok ⟨"returns_seven", none, false, false⟩ := by
  exact ⟨rfl, rfl, rfl, rfl⟩

/-- C5 (amended): for every tool registered with `serialize=False` and
`save_return=True` whose callable returns a non-string value, dispatch
raises the ConfigurationError/TypeError-class failure at invocation time
(inside `run_function`), while registration itself always succeeds
without error. -/
theorem serialize_false_nonstring_raises (s : OpenAIFunctionSet) (input : FunctionCall)
    (f : OpenAIFunction) (args v : Json)
    (hfind : s.find_function input.name = .ok f)
    (hser : f.serialize = false)
    (hsave : f.save_return = true)
    (hparse : json_loads input.arguments = some args)
    (hcall : f.call args = .ok v)
    (hv : v.isStr = false) :
    s.run_function input = .error .SerializeTypeError
  ∧ ∀ (s2 : OpenAIFunctionSet) (c : PyCallable) (n d : Option String) (cfg : WrapperConfig),
      (s2.add_function (.callable c) n d cfg).1 = .callable c
      ∧ (s2.add_function (.callable c) n d cfg).2.functions
          = s2.functions ++ [FunctionWrapper c cfg n d] := by
  refine ⟨?_, fun s2 c n d cfg => ⟨rfl, rfl⟩⟩
  rw [run_function_after_find s input f hfind, hparse]
  simp only [OpenAIFunctionSet.get_function_result, hcall, hsave, hser]
  cases v
  case str s3 => exact absurd hv (by simp [Json.isStr])
  all_goals rfl

/-- C5 witness: `returns_seven` registered with `serialize=False` and the
default `save_return=True` raises the serialization type error when
dispatched, although its registration succeeded. -/
theorem serialize_false_nonstring_raises_witness :
    seven_noser_set.run_function ⟨"returns_seven", "\x7b\x7d"⟩
      = .error .SerializeTypeError := by
  exact (serialize_false_nonstring_raises seven_noser_set ⟨"returns_seven", "\x7b\x7d"⟩
    (FunctionWrapper returns_seven_callable ⟨true, false, false, false⟩ none none)
    (.obj .nil) (.num 7) rfl rfl rfl rfl rfl rfl).1

/-- C6: once the name resolves and the arguments parse, dispatch is
exactly invocation plus packaging — it never consults the tool's
`parameters` schema (replacing the schema changes nothing), the wrapped
callable receives the parsed object expanded as its keyword arguments,
and an exception from the callable propagates to the caller unwrapped. -/
theorem dispatch_invokes_unvalidated (s : OpenAIFunctionSet) (input : FunctionCall)
    (f : OpenAIFunction) (args : Json)
    (hfind : s.find_function input.name = .ok f)
    (hparse : json_loads input.arguments = some args) :
    (s.run_function input =
       match s.get_function_result f args with
       | .error e => .error e
       | .ok result => .ok ⟨f.name, result, f.remove_call, f.interpret_as_response⟩)
  ∧ (∀ e, f.call args = .error e → s.run_function input = .error (.CallableError e))
  ∧ (∀ p, s.get_function_result { f with parameters := p } args
        = s.get_function_result f args)
  ∧ (∀ (c : PyCallable) (cfg : WrapperConfig) (n d : Option String) (kwargs : JsonObj),
       (FunctionWrapper c cfg n d).call (.obj kwargs) = c.impl kwargs) := by
  refine ⟨?_, ?_, fun p => rfl, fun c cfg n d kwargs => rfl⟩
  · rw [run_function_after_find s input f hfind, hparse]
  · intro e he
    rw [run_function_after_find s input f hfind, hparse]
    simp [OpenAIFunctionSet.get_function_result, he]

/-- C6 witness: the `ValueError` raised by the `raises` tool propagates
through `run_function` unwrapped. -/
theorem dispatch_invokes_unvalidated_witness :
    raises_set.run_function ⟨"raises", "\x7b\x7d"⟩
      = .error (.CallableError "ValueError: boom") := by
  exact (dispatch_invokes_unvalidated raises_set ⟨"raises", "\x7b\x7d"⟩
    (FunctionWrapper raises_callable WrapperConfig.default none none)
    (.obj .nil) rfl rfl).2.1 "ValueError: boom" rfl

/-- C7: `add_function` supports its three entry points — a fully-formed
`OpenAIFunction` is appended verbatim and returned; a raw callable is
wrapped with the given overrides, appended, and returned; with no
callable a configured factory is returned (registry untouched) whose
later application to a callable wraps and registers it exactly like the
direct callable form. -/
theorem add_function_three_entry_points (s : OpenAIFunctionSet)
    (n d : Option String) (cfg : WrapperConfig) :
    (∀ f : OpenAIFunction,
       s.add_function (.func f) n d cfg = (.func f, ⟨s.functions ++ [f]⟩))
  ∧ (∀ c : PyCallable,
       s.add_function (.callable c) n d cfg
         = (.callable c, ⟨s.functions ++ [FunctionWrapper c cfg n d]⟩))
  ∧ s.add_function .nothing n d cfg = (.factory n d cfg, s)
  ∧ (∀ (c : PyCallable) (s2 : OpenAIFunctionSet),
       apply_factory n d cfg s2 c = s2.add_function (.callable c) n d cfg) :=
  ⟨fun f => rfl, fun c => rfl, rfl, fun c s2 => rfl⟩

/-- C8: running
`{name: "add_decimal_values", raw_arguments: '\x7b"value1": 2, "value2": 3\x7d'}`
against the registry holding the wrapped integer-addition UDF returns an
outcome whose value serializes to `5`. -/
theorem run_add_decimal_values_returns_five :
    adder_set.run_function ⟨"add_decimal_values", "\x7b\"value1\": 2, \"value2\": 3\x7d"⟩
      = .ok ⟨"add_decimal_values", some ⟨.num 5, true⟩, false, false⟩
  ∧ RawFunctionResult.serialized ⟨.num 5, true⟩ = "5" := by
  exact ⟨rfl, rfl⟩
